import Mathlib

/-!
Verification development for the azure-a2a-translation repository.

A shallow embedding of the two core modules:

* `translation_worker_azure.py` — the worker loop body
  (`process_queue_message`), modelled as a pure function from the parsed
  message content and the outcomes of the external calls (translation
  provider, blob upload, results-queue send) to the ordered list of
  side effects it performs.

* `translation_agent_azure.py` — the submission gateway
  (`message_send`, `execute_task_legacy`) and the status gateway
  (`tasks_get`, `get_task_status_legacy`), modelled as pure functions;
  nondeterministic inputs of the Python code (generated uuids, clock
  readings, whether the enqueue call raises) are passed in explicitly.

Python exceptions are modelled by case analysis: each fallible external
call either succeeds or raises, and a raise aborts the remaining
statements of the enclosing try block, transferring to the matching
except handler, exactly as in the source.
-/

namespace A2ATranslation

/-- Default value of the TRANSLATION_RESULTS_QUEUE environment variable
in translation_worker_azure.py. -/
def TRANSLATION_RESULTS_QUEUE : String := "translation-results"

/-- Default value of the TRANSLATION_JOBS_QUEUE environment variable. -/
def TRANSLATION_JOBS_QUEUE : String := "translation-jobs"

/-- Result Record: the result_payload dict built by the worker on a
successful translation and persisted as JSON to blob
"translation-results/{task_id}.json". It has exactly these four keys
(task_id, status, artifact_content, processed_at); the status written by
the worker is always "completed". The processed_at timestamp
(time.time() in Python) is carried opaquely, never computed with, so it
is modelled as a natural number. -/
structure ResultRecord where
  task_id : String
  status : String
  artifact_content : String
  processed_at : Nat
deriving DecidableEq, Repr

/-- A decoded Job Payload as the worker reads it back with json.loads:
each of the three keys the worker subscripts may be present or absent
(absence makes the subscript raise KeyError). -/
structure DecodedJob where
  task_id : Option String
  document_content : Option String
  target_language : Option String
deriving DecidableEq, Repr

/-- The side effects process_queue_message can perform, in program
order. ensureContainer / ensureQueue stand for the create calls whose
ResourceExistsError is swallowed (create-if-absent). The payload of
writeBlob and sendResult is the Result Record whose json.dumps
serialization (result_json, computed once) is uploaded and sent. -/
inductive Effect where
  | ensureContainer (name : String)
  | writeBlob (container : String) (blob : String) (record : ResultRecord)
  | ensureQueue (name : String)
  | sendResult (queue : String) (record : ResultRecord)
  | deleteMessage
deriving DecidableEq, Repr

/-- Outcomes of the external calls made on the success path of
process_queue_message. translation = none means
translate_text_with_azure raised; translation = some t means it
returned translated text t. Each Bool is true when the corresponding
call returns normally and false when it raises (a raise lands in the
generic except handler). The create-if-absent calls count
ResourceExistsError as a normal return, since that exception is
swallowed in the source. -/
structure ExtOutcome where
  translation : Option String
  ensureContainerOk : Bool
  blobUploadOk : Bool
  ensureResultsQueueOk : Bool
  resultsSendOk : Bool
deriving DecidableEq, Repr

/-- Shallow embedding of process_queue_message
(translation_worker_azure.py). content = none models a message body
that fails json.loads (JSONDecodeError branch: the message is deleted
as poison). content = some job models a decoded JSON object; a missing
key raises KeyError, which is not a JSONDecodeError and therefore falls
through to the generic except handler, performing no effect at all.
On the fully successful path the effects are, in order: ensure the
results container, upload the Result Record blob, ensure the results
queue, send the Result Record to the results queue, delete the job
message. A raise at any point aborts the rest. -/
def process_queue_message (content : Option DecodedJob) (ext : ExtOutcome)
    (now : Nat) : List Effect :=
  match content with
  | none => [Effect.deleteMessage]
  | some job =>
    match job.task_id, job.document_content, job.target_language with
    | some tid, some _doc, some _lang =>
      (match ext.translation with
       | none => []
       | some translated =>
         let r : ResultRecord :=
           { task_id := tid, status := "completed",
             artifact_content := translated, processed_at := now }
         if ext.ensureContainerOk then
           Effect.ensureContainer "translation-results" ::
           (if ext.blobUploadOk then
             Effect.writeBlob "translation-results" (tid ++ ".json") r ::
             (if ext.ensureResultsQueueOk then
               Effect.ensureQueue TRANSLATION_RESULTS_QUEUE ::
               (if ext.resultsSendOk then
                 [Effect.sendResult TRANSLATION_RESULTS_QUEUE r,
                  Effect.deleteMessage]
                else [])
              else [])
            else [])
         else [])
    | _, _, _ => []

/-- A decoded job is well formed when the three keys the worker
subscripts are all present. -/
def DecodedJob.wellFormed (job : DecodedJob) : Prop :=
  job.task_id.isSome ∧ job.document_content.isSome ∧
    job.target_language.isSome

instance (job : DecodedJob) : Decidable job.wellFormed := by
  unfold DecodedJob.wellFormed; infer_instance

/-- Azure Storage Queue peek-lock contract (collaborator semantics,
spec section 2): a received message is invisible for the visibility
timeout; if the consumer does not delete it within the lease, it
becomes visible again at lease expiry and is redelivery-eligible.
So a processed message is redelivery-eligible exactly when its
processing trace contains no deleteMessage effect. -/
def redeliveryEligible (trace : List Effect) : Bool :=
  ! trace.contains Effect.deleteMessage

/-- There is a Result Record write in the trace. -/
def writesResult (trace : List Effect) : Bool :=
  trace.any fun e => match e with
    | Effect.writeBlob _ _ _ => true
    | _ => false

/-! ### The gateway (translation_agent_azure.py) -/

/-- An inbound A2A Part as message_send inspects it: it reads
part.get("kind") and then part.get("text") for a text part, or
part.get("data", empty dict).get("target_language", "en") for a data
part. textPart carries the optional "text" value (absent key gives
Python None); dataPart carries the optional "target_language" value of
its data mapping; any other kind is skipped by the loop. -/
inductive InPart where
  | textPart (text : Option String)
  | dataPart (target_language : Option String)
  | otherPart
deriving DecidableEq, Repr

/-- An inbound A2A Message as message_send reads it: the parts list and
the optional messageId it copies into the Job Payload. -/
structure InMessage where
  parts : List InPart
  messageId : Option String
deriving DecidableEq, Repr

/-- Python truthiness test applied to the text content variable, which
is either None (initial value, or a text part without a "text" key) or
a string: only None and the empty string are falsy. -/
def pyFalsy : Option String → Bool
  | none => true
  | some s => s == ""

/-- The extraction loop at the top of message_send: text_content starts
as None and is overwritten by part.get("text") at every text part;
target_language starts as "en" and is overwritten by
data.get("target_language", "en") at every data part. -/
def extractLoop : List InPart → Option String → String →
    Option String × String
  | [], text_content, target_language => (text_content, target_language)
  | InPart.textPart t :: rest, _, target_language =>
      extractLoop rest t target_language
  | InPart.dataPart tl :: rest, text_content, _ =>
      extractLoop rest text_content (tl.getD "en")
  | InPart.otherPart :: rest, text_content, target_language =>
      extractLoop rest text_content target_language

/-- The (text_content, target_language) pair message_send extracts from
an inbound message. -/
def extractContent (message : InMessage) : Option String × String :=
  extractLoop message.parts none "en"

/-- The Job Payload dict built by the gateway and json-dumped onto the
jobs queue. message_id is the messageId copied from the A2A message;
the legacy endpoint builds the dict without that key, modelled as
none. -/
structure JobPayload where
  task_id : String
  document_content : String
  target_language : String
  message_id : Option String
deriving DecidableEq, Repr

/-- An A2A Message object as built by create_a2a_message: role, a
single text part with the given content, a fresh messageId and an
optional taskId. -/
structure A2AMessageObj where
  role : String
  partText : String
  messageId : String
  taskId : Option String
deriving DecidableEq, Repr

/-- An artifact attached by tasks_get to a completed task view: the
fresh artifactId, constant name, description, one text part holding the
translated text, and the metadata mapping with target_language and
processed_at read from the stored record. -/
structure Artifact where
  artifactId : String
  name : String
  description : String
  textPart : String
  metaTargetLanguage : Option String
  metaProcessedAt : Option Nat
deriving DecidableEq, Repr

/-- An A2A Task object as built by create_a2a_task: id, a fresh
contextId, the status state and timestamp, an optional status message,
and the artifacts list. The constant fields history = [], metadata = {}
and kind = "task" carry no information and are omitted. -/
structure A2ATask where
  id : String
  contextId : String
  state : String
  timestamp : String
  statusMessage : Option A2AMessageObj
  artifacts : List Artifact
deriving DecidableEq, Repr

/-- The nondeterministic inputs of one gateway handler invocation:
the uuid4 values and the clock readings the Python code draws
(str(uuid.uuid4()) for contextId, artifactId and message ids,
datetime.utcnow() for the status timestamp). -/
structure FreshEnv where
  contextId : String
  artifactId : String
  msgId1 : String
  msgId2 : String
  now : String
deriving DecidableEq, Repr

/-- create_a2a_task(task_id, status_state, message_content): builds a
Task with a fresh contextId, the given state, a timestamp, empty
artifacts, and, when message_content is given, an agent status message
(whose taskId field is None). -/
def create_a2a_task (task_id : String) (status_state : String)
    (message_content : Option String) (env : FreshEnv) : A2ATask :=
  { id := task_id, contextId := env.contextId, state := status_state,
    timestamp := env.now,
    statusMessage := message_content.map fun c =>
      { role := "agent", partText := c, messageId := env.msgId1,
        taskId := none },
    artifacts := [] }

/-- The error message of the ValueError raised by message_send when no
truthy text content was found, wrapped by its except handler. -/
def NO_TEXT_ERROR : String :=
  "Translation request failed: No text content found in message parts"

/-- Shallow embedding of the A2A method message_send. freshTaskId is
the str(uuid.uuid4()) drawn for the task id; enqueueOk is false when
ensure_queue_exists or send_message raises (the raise is caught and
re-raised as the wrapped Exception). The result pairs the JSON-RPC
outcome (ok Task or error) with the list of payloads actually enqueued
on the jobs queue. On success the task is created in state "submitted"
and then updated to "working" with a fresh progress status message
carrying the task id. -/
def message_send (message : InMessage) (freshTaskId : String)
    (env : FreshEnv) (enqueueOk : Bool) :
    Except String A2ATask × List JobPayload :=
  let ec := extractContent message
  if pyFalsy ec.1 then (Except.error NO_TEXT_ERROR, [])
  else
    let payload : JobPayload :=
      { task_id := freshTaskId, document_content := ec.1.getD "",
        target_language := ec.2, message_id := message.messageId }
    if enqueueOk then
      let task := create_a2a_task freshTaskId "submitted"
        (some "Translation task received") env
      let task := { task with
        state := "working",
        statusMessage := some
          { role := "agent", partText := "Translation in progress",
            messageId := env.msgId2, taskId := some freshTaskId } }
      (Except.ok task, [payload])
    else
      (Except.error "Translation request failed: enqueue failed", [])

/-- What the status gateway finds under "{id}.json" in the
translation-results container: either an already-A2A-format blob
(kind = "task") returned verbatim, or a legacy-format Result Record
transformed into an A2A view. The worker only ever writes the legacy
form. -/
inductive StoredBlob where
  | a2aTask (task : A2ATask)
  | legacy (record : ResultRecord)
deriving DecidableEq, Repr

/-- Shallow embedding of the A2A method tasks_get. stored = none models
the blob download raising (no Result Record yet): the handler
synthesizes a "working" task. For a stored legacy Result Record the
handler builds a "completed" task carrying one artifact; since the
record written by the worker has no target_language key, the
description uses the "unknown" default and the metadata
target_language is None. -/
def tasks_get (id : String) (stored : Option StoredBlob)
    (env : FreshEnv) : A2ATask :=
  match stored with
  | none => create_a2a_task id "working" (some "Translation in progress") env
  | some (StoredBlob.a2aTask t) => t
  | some (StoredBlob.legacy r) =>
    let task := create_a2a_task id "completed" none env
    { task with artifacts := [
        { artifactId := env.artifactId, name := "Translation Result",
          description := "Translated text to unknown",
          textPart := r.artifact_content,
          metaTargetLanguage := none,
          metaProcessedAt := some r.processed_at }] }

/-- The JSON body of the legacy status endpoint: the found branch
returns task_id, status, artifact_content and processed_at; the pending
branch returns task_id, status and a human message. -/
inductive TaskStatusResp where
  | found (task_id : String) (status : String)
      (artifact_content : String) (processed_at : Option Nat)
  | pending (task_id : String) (status : String) (message : String)
deriving DecidableEq, Repr

/-- The status field of a legacy status response. -/
def TaskStatusResp.statusOf : TaskStatusResp → String
  | TaskStatusResp.found _ s _ _ => s
  | TaskStatusResp.pending _ s _ => s

/-- Shallow embedding of GET /task_status/{task_id}
(get_task_status_legacy). stored = none models the blob download
raising (task still pending). Both branches answer HTTP 200. Note the
found branch hard-codes status "completed" and never reads the status
field of the stored record. -/
def get_task_status_legacy (task_id : String)
    (stored : Option ResultRecord) : TaskStatusResp × Nat :=
  match stored with
  | some r =>
    (TaskStatusResp.found task_id "completed" r.artifact_content
      (some r.processed_at), 200)
  | none =>
    (TaskStatusResp.pending task_id "pending"
      "Task is being processed by a worker", 200)

/-- The JSON body of POST /execute_task: 202 accepted, 400 validation
failure, or 500 on an enqueue error. -/
inductive ExecResp where
  | accepted (task_id : String) (status : String) (message : String)
  | badRequest (status : String) (error : String)
  | serverError (status : String)
deriving DecidableEq, Repr

/-- The legacy request body as execute_task_legacy reads it:
parts.document_content, envelope.target_language and envelope.task_id,
each possibly absent. -/
structure LegacyRequest where
  document_content : Option String
  target_language : Option String
  task_id : Option String
deriving DecidableEq, Repr

/-- Shallow embedding of POST /execute_task (execute_task_legacy).
freshTaskId is the uuid drawn as default task id; enqueueOk is false
when ensure_queue_exists or send_message raises (caught by the handler,
which answers 500). Returns the HTTP response paired with its status
code and the list of payloads actually enqueued. A missing or empty
document_content answers 400 and enqueues nothing. -/
def execute_task_legacy (req : LegacyRequest) (freshTaskId : String)
    (enqueueOk : Bool) : (ExecResp × Nat) × List JobPayload :=
  let target_language := req.target_language.getD "el"
  let task_id := req.task_id.getD freshTaskId
  if pyFalsy req.document_content then
    ((ExecResp.badRequest "failed" "document_content is required", 400), [])
  else if enqueueOk then
    ((ExecResp.accepted task_id "pending"
        "Task received. A worker will process it shortly.", 202),
     [{ task_id := task_id,
        document_content := req.document_content.getD "",
        target_language := target_language, message_id := none }])
  else
    ((ExecResp.serverError "failed", 500), [])

/-- The terminal fields of an A2A task view: its state, the texts of
its artifacts, and the processed_at stamps in their metadata. These are
the fields claim C8 calls drift-free. -/
def a2aTerminalFields (t : A2ATask) :
    String × List String × List (Option Nat) :=
  (t.state, t.artifacts.map Artifact.textPart,
   t.artifacts.map Artifact.metaProcessedAt)

/-- The terminal fields of a legacy status response: status,
artifact_content and processed_at (the pending branch carries
neither). -/
def legacyTerminalFields (resp : TaskStatusResp) :
    String × Option String × Option Nat :=
  match resp with
  | TaskStatusResp.found _ s a p => (s, some a, p)
  | TaskStatusResp.pending _ s _ => (s, none, none)

/-! ### Helper lemmas about the worker trace -/

/-- The fully successful worker trace, spelled out. -/
lemma process_trace_all_ok (tid doc lang tr : String) (now : Nat) :
    process_queue_message
      (some ⟨some tid, some doc, some lang⟩)
      ⟨some tr, true, true, true, true⟩ now =
    [Effect.ensureContainer "translation-results",
     Effect.writeBlob "translation-results" (tid ++ ".json")
       ⟨tid, "completed", tr, now⟩,
     Effect.ensureQueue TRANSLATION_RESULTS_QUEUE,
     Effect.sendResult TRANSLATION_RESULTS_QUEUE
       ⟨tid, "completed", tr, now⟩,
     Effect.deleteMessage] := by
  simp [process_queue_message]

/-- The job message is deleted only when every call on the success path
returned normally. -/
lemma delete_mem_flags (tid doc lang tr : String) (now : Nat)
    (c1 c2 c3 c4 : Bool)
    (h : Effect.deleteMessage ∈ process_queue_message
      (some ⟨some tid, some doc, some lang⟩) ⟨some tr, c1, c2, c3, c4⟩ now) :
    c1 = true ∧ c2 = true ∧ c3 = true ∧ c4 = true := by
  cases c1 <;> cases c2 <;> cases c3 <;> cases c4 <;>
    simp [process_queue_message] at h ⊢

/-! ### Claims about the worker -/

/-- C1: in the per-message processing of a well-formed Job Payload whose
translation succeeds, whenever the queue message is deleted, the Result
Record blob (key "{task_id}.json" in the translation-results container)
was written at a strictly earlier position of the effect trace: the
message is never deleted before the result write. -/
theorem C1_result_write_precedes_delete
    (tid doc lang tr : String) (ext : ExtOutcome) (now : Nat)
    (ht : ext.translation = some tr) :
    ∀ i, (process_queue_message (some ⟨some tid, some doc, some lang⟩)
        ext now).get? i = some Effect.deleteMessage →
      ∃ j, j < i ∧
        (process_queue_message (some ⟨some tid, some doc, some lang⟩)
          ext now).get? j = some (Effect.writeBlob "translation-results"
            (tid ++ ".json") ⟨tid, "completed", tr, now⟩) := by
  obtain ⟨t, c1, c2, c3, c4⟩ := ext
  simp only at ht
  subst ht
  intro i hi
  have hmem : Effect.deleteMessage ∈ process_queue_message
      (some ⟨some tid, some doc, some lang⟩)
      ⟨some tr, c1, c2, c3, c4⟩ now := List.get?_mem hi
  obtain ⟨e1, e2, e3, e4⟩ := delete_mem_flags tid doc lang tr now c1 c2 c3 c4 hmem
  subst e1; subst e2; subst e3; subst e4
  rw [process_trace_all_ok] at hi ⊢
  match i with
  | 0 => simp at hi
  | 1 => simp at hi
  | 2 => simp at hi
  | 3 => simp at hi
  | 4 => exact ⟨1, by omega, rfl⟩
  | (n + 5) => simp at hi

/-- C1 witness: a concrete run (task "t1", text "hello", target "el",
translation "geia", all calls succeeding) in which the delete sits at
trace position 4 and the Result Record write strictly before it. -/
theorem C1_result_write_precedes_delete_witness :
    (⟨some "geia", true, true, true, true⟩ : ExtOutcome).translation
        = some "geia" ∧
    (process_queue_message (some ⟨some "t1", some "hello", some "el"⟩)
        ⟨some "geia", true, true, true, true⟩ 7).get? 4
        = some Effect.deleteMessage ∧
    (∃ j, j < 4 ∧
      (process_queue_message (some ⟨some "t1", some "hello", some "el"⟩)
        ⟨some "geia", true, true, true, true⟩ 7).get? j
        = some (Effect.writeBlob "translation-results" ("t1" ++ ".json")
            ⟨"t1", "completed", "geia", 7⟩)) :=
  ⟨rfl, by decide,
   C1_result_write_precedes_delete "t1" "hello" "el" "geia"
     ⟨some "geia", true, true, true, true⟩ 7 rfl 4 (by decide)⟩

/-- C2 counterexample: the payload decoding to an object that lacks
task_id (here with document_content and target_language present) is NOT
deleted: subscripting task_data raises KeyError, which the generic
except handler absorbs without deleting, so the claim that such a
message is deleted immediately and never redelivered is false. -/
theorem C2_missing_key_not_deleted_counterexample :
    Effect.deleteMessage ∉ process_queue_message
      (some ⟨none, some "hello", some "el"⟩)
      ⟨some "geia", true, true, true, true⟩ 0 ∧
    redeliveryEligible (process_queue_message
      (some ⟨none, some "hello", some "el"⟩)
      ⟨some "geia", true, true, true, true⟩ 0) = true := by
  constructor
  · simp [process_queue_message]
  · decide

/-- C2 amended: only a payload that fails to JSON-decode is treated as
poison — deleted immediately, with no Result Record written, never
redelivery-eligible. A payload that decodes but is missing task_id or
document_content is not deleted and writes nothing: the KeyError lands
in the generic handler, the trace is empty, and the message becomes
redelivery-eligible when its lease expires. -/
theorem C2_poison_only_on_decode_failure
    (ext : ExtOutcome) (now : Nat) (job : DecodedJob)
    (hmiss : job.task_id = none ∨ job.document_content = none) :
    process_queue_message none ext now = [Effect.deleteMessage] ∧
    redeliveryEligible (process_queue_message none ext now) = false ∧
    process_queue_message (some job) ext now = [] ∧
    redeliveryEligible (process_queue_message (some job) ext now) = true ∧
    writesResult (process_queue_message (some job) ext now) = false := by
  have hempty : process_queue_message (some job) ext now = [] := by
    obtain ⟨ti, dc, tl⟩ := job
    simp only at hmiss
    rcases hmiss with h | h
    · subst h
      cases dc <;> cases tl <;> simp [process_queue_message]
    · subst h
      cases ti <;> cases tl <;> simp [process_queue_message]
  have h1 : process_queue_message none ext now = [Effect.deleteMessage] := by
    simp [process_queue_message]
  refine ⟨h1, ?_, hempty, ?_, ?_⟩
  · rw [h1]; decide
  · rw [hempty]; decide
  · rw [hempty]; decide

/-- C2 amended witness: the concrete undecodable message is deleted;
the concrete decoded payload missing task_id produces no effect and
stays redelivery-eligible. -/
theorem C2_poison_only_on_decode_failure_witness :
    ((⟨none, some "hello", some "el"⟩ : DecodedJob).task_id = none ∨
      (⟨none, some "hello", some "el"⟩ : DecodedJob).document_content
        = none) ∧
    process_queue_message none ⟨some "geia", true, true, true, true⟩ 0
      = [Effect.deleteMessage] ∧
    process_queue_message (some ⟨none, some "hello", some "el"⟩)
      ⟨some "geia", true, true, true, true⟩ 0 = [] :=
  ⟨Or.inl rfl,
   (C2_poison_only_on_decode_failure ⟨some "geia", true, true, true, true⟩
      0 ⟨none, some "hello", some "el"⟩ (Or.inl rfl)).1,
   (C2_poison_only_on_decode_failure ⟨some "geia", true, true, true, true⟩
      0 ⟨none, some "hello", some "el"⟩ (Or.inl rfl)).2.2.1⟩

/-- C7: for a well-formed Job Payload whose translation provider call
raises, the worker performs no effect at all: the queue message is not
deleted, no Result Record is written, and once the visibility timeout
expires the message is redelivery-eligible (at-least-once retry). -/
theorem C7_provider_failure_leaves_message
    (tid doc lang : String) (ext : ExtOutcome) (now : Nat)
    (ht : ext.translation = none) :
    process_queue_message (some ⟨some tid, some doc, some lang⟩) ext now
        = [] ∧
    Effect.deleteMessage ∉ process_queue_message
      (some ⟨some tid, some doc, some lang⟩) ext now ∧
    writesResult (process_queue_message
      (some ⟨some tid, some doc, some lang⟩) ext now) = false ∧
    redeliveryEligible (process_queue_message
      (some ⟨some tid, some doc, some lang⟩) ext now) = true := by
  obtain ⟨t, c1, c2, c3, c4⟩ := ext
  simp only at ht
  subst ht
  refine ⟨by simp [process_queue_message], ?_, ?_, ?_⟩ <;>
    simp [process_queue_message, writesResult, redeliveryEligible]

/-- C7 witness: a concrete well-formed payload with a failed provider
call leaves an empty trace. -/
theorem C7_provider_failure_leaves_message_witness :
    (⟨none, true, true, true, true⟩ : ExtOutcome).translation = none ∧
    process_queue_message (some ⟨some "t1", some "hello", some "el"⟩)
      ⟨none, true, true, true, true⟩ 0 = [] :=
  ⟨rfl,
   (C7_provider_failure_leaves_message "t1" "hello" "el"
      ⟨none, true, true, true, true⟩ 0 rfl).1⟩

/-- C10: on a fully successful translation the worker, after uploading
the Result Record blob, ensures the results queue (default name
"translation-results") exists and sends the very same Result Record to
it before deleting the job message; and when that send raises, the job
message is left undeleted (redelivery-eligible) even though the Result
Record blob was already written. -/
theorem C10_results_queue_send_before_delete
    (tid doc lang tr : String) (now : Nat) :
    TRANSLATION_RESULTS_QUEUE = "translation-results" ∧
    process_queue_message (some ⟨some tid, some doc, some lang⟩)
        ⟨some tr, true, true, true, true⟩ now =
      [Effect.ensureContainer "translation-results",
       Effect.writeBlob "translation-results" (tid ++ ".json")
         ⟨tid, "completed", tr, now⟩,
       Effect.ensureQueue TRANSLATION_RESULTS_QUEUE,
       Effect.sendResult TRANSLATION_RESULTS_QUEUE
         ⟨tid, "completed", tr, now⟩,
       Effect.deleteMessage] ∧
    process_queue_message (some ⟨some tid, some doc, some lang⟩)
        ⟨some tr, true, true, true, false⟩ now =
      [Effect.ensureContainer "translation-results",
       Effect.writeBlob "translation-results" (tid ++ ".json")
         ⟨tid, "completed", tr, now⟩,
       Effect.ensureQueue TRANSLATION_RESULTS_QUEUE] ∧
    redeliveryEligible (process_queue_message
      (some ⟨some tid, some doc, some lang⟩)
      ⟨some tr, true, true, true, false⟩ now) = true := by
  refine ⟨rfl, process_trace_all_ok tid doc lang tr now, ?_, ?_⟩ <;>
    simp [process_queue_message, redeliveryEligible, TRANSLATION_RESULTS_QUEUE]

/-! ### Helper lemmas about the gateway extraction loop -/

/-- The parts list holds no text part at all. -/
def hasNoTextPart (parts : List InPart) : Prop :=
  ∀ t, InPart.textPart t ∉ parts

/-- The "text" field of the last text part of the list, when the list
has a text part: some t means the last text part carried t as its
optional "text" value. -/
def lastTextField : List InPart → Option (Option String)
  | [] => none
  | InPart.textPart t :: rest => some ((lastTextField rest).getD t)
  | InPart.dataPart _ :: rest => lastTextField rest
  | InPart.otherPart :: rest => lastTextField rest

/-- The extraction loop leaves text_content at its initial value
exactly on lists without a text part, and otherwise ends with the
"text" field of the last text part. -/
lemma extractLoop_fst (parts : List InPart) :
    ∀ (init : Option String) (lang : String),
      (extractLoop parts init lang).1 = (lastTextField parts).getD init := by
  induction parts with
  | nil => intro init lang; rfl
  | cons p rest ih =>
    intro init lang
    cases p with
    | textPart t =>
      simp only [extractLoop, lastTextField, ih]
      cases lastTextField rest <;> rfl
    | dataPart tl => simp only [extractLoop, lastTextField, ih]
    | otherPart => simp only [extractLoop, lastTextField, ih]

/-- A list with no text part has no last text field. -/
lemma lastTextField_eq_none_of_hasNoTextPart (parts : List InPart)
    (h : hasNoTextPart parts) : lastTextField parts = none := by
  induction parts with
  | nil => rfl
  | cons p rest ih =>
    have hrest : hasNoTextPart rest := fun t hm =>
      h t (List.mem_cons_of_mem p hm)
    cases p with
    | textPart t => exact absurd (List.mem_cons_self _ _) (h t)
    | dataPart tl => simpa [lastTextField] using ih hrest
    | otherPart => simpa [lastTextField] using ih hrest

/-! ### Claims about the gateway -/

/-- C3: a valid message/send request — a message whose extracted text
content is a nonempty string — with a successful enqueue returns a Task
whose status state is "working" and whose id is the freshly generated
task id, and enqueues exactly one Job Payload carrying that task id,
the text content and the extracted target language. -/
theorem C3_message_send_working_task
    (message : InMessage) (freshTaskId : String) (env : FreshEnv)
    (t : String) (hextract : (extractContent message).1 = some t)
    (hne : t ≠ "") :
    ∃ task, message_send message freshTaskId env true =
        (Except.ok task,
         [{ task_id := freshTaskId, document_content := t,
            target_language := (extractContent message).2,
            message_id := message.messageId }]) ∧
      task.state = "working" ∧ task.id = freshTaskId := by
  have hfalsy : pyFalsy (extractContent message).1 = false := by
    rw [hextract]
    simp only [pyFalsy, beq_eq_false_iff_ne, ne_eq]
    exact hne
  refine ⟨{ id := freshTaskId, contextId := env.contextId,
            state := "working", timestamp := env.now,
            statusMessage := some { role := "agent",
                                    partText := "Translation in progress",
                                    messageId := env.msgId2,
                                    taskId := some freshTaskId },
            artifacts := [] }, ?_, rfl, rfl⟩
  simp [message_send, hfalsy, hextract, create_a2a_task, pyFalsy, hne]

/-- C3 witness: a concrete message with text "hello" and a data part
selecting Spanish yields a working task with the fresh id and a single
enqueued payload. -/
theorem C3_message_send_working_task_witness :
    (extractContent ⟨[InPart.textPart (some "hello"),
        InPart.dataPart (some "es")], some "m1"⟩).1 = some "hello" ∧
    "hello" ≠ "" ∧
    ∃ task, message_send ⟨[InPart.textPart (some "hello"),
          InPart.dataPart (some "es")], some "m1"⟩ "f1"
          ⟨"c", "a", "x", "y", "ts"⟩ true =
        (Except.ok task,
         [{ task_id := "f1", document_content := "hello",
            target_language := (extractContent
              ⟨[InPart.textPart (some "hello"),
                InPart.dataPart (some "es")], some "m1"⟩).2,
            message_id := some "m1" }]) ∧
      task.state = "working" ∧ task.id = "f1" :=
  ⟨rfl, by decide,
   C3_message_send_working_task
     ⟨[InPart.textPart (some "hello"), InPart.dataPart (some "es")],
      some "m1"⟩ "f1" ⟨"c", "a", "x", "y", "ts"⟩ "hello" rfl (by decide)⟩

/-- C4 counterexample: a stored Result Record whose status field is
"failed" is reported by the legacy status view with status "completed",
not "pending": the view hard-codes "completed" for every stored record
and never reads the record status field, so the claimed
if-and-only-if is false. -/
theorem C4_failed_record_reported_completed_counterexample :
    (⟨"t1", "failed", "ciao", 7⟩ : ResultRecord).status ≠ "completed" ∧
    ((get_task_status_legacy "t1"
        (some ⟨"t1", "failed", "ciao", 7⟩)).1).statusOf = "completed" ∧
    ((get_task_status_legacy "t1"
        (some ⟨"t1", "failed", "ciao", 7⟩)).1).statusOf ≠ "pending" := by
  refine ⟨by decide, rfl, by decide⟩

/-- C4 amended: the legacy status view reports "completed" for every
stored Result Record, whatever its status field holds, and "pending"
exactly when no record is stored; the record status field is never
consulted. -/
theorem C4_legacy_view_ignores_record_status
    (task_id : String) (stored : Option ResultRecord) :
    ((get_task_status_legacy task_id stored).1).statusOf =
      (match stored with
       | some _ => "completed"
       | none => "pending") := by
  cases stored <;> rfl

/-- C5: a submission missing the required content is rejected
synchronously with nothing enqueued: an A2A message without any text
part makes message_send answer the wrapped validation error and enqueue
nothing, and a legacy request without document_content makes
/execute_task answer 400 with nothing enqueued. (The gateway performs
no Result Store write anywhere, so no task state comes to exist.) -/
theorem C5_missing_content_rejected_nothing_enqueued
    (message : InMessage) (freshTaskId : String) (env : FreshEnv)
    (enqueueOk : Bool) (req : LegacyRequest) (freshTaskId2 : String)
    (enqueueOk2 : Bool)
    (hno : hasNoTextPart message.parts)
    (hdoc : req.document_content = none) :
    message_send message freshTaskId env enqueueOk =
      (Except.error NO_TEXT_ERROR, []) ∧
    execute_task_legacy req freshTaskId2 enqueueOk2 =
      ((ExecResp.badRequest "failed" "document_content is required", 400),
       []) := by
  constructor
  · have h1 : (extractContent message).1 = none := by
      rw [extractContent, extractLoop_fst,
        lastTextField_eq_none_of_hasNoTextPart message.parts hno]
      rfl
    simp [message_send, h1, pyFalsy]
  · simp [execute_task_legacy, hdoc, pyFalsy]

/-- C5 witness: a concrete message holding only a data part is rejected
with nothing enqueued, and a concrete legacy body without
document_content gets 400 with nothing enqueued. -/
theorem C5_missing_content_rejected_witness :
    hasNoTextPart [InPart.dataPart (some "es")] ∧
    (⟨none, some "el", none⟩ : LegacyRequest).document_content = none ∧
    message_send ⟨[InPart.dataPart (some "es")], some "m1"⟩ "f1"
        ⟨"c", "a", "x", "y", "ts"⟩ true =
      (Except.error NO_TEXT_ERROR, []) ∧
    execute_task_legacy ⟨none, some "el", none⟩ "f2" true =
      ((ExecResp.badRequest "failed" "document_content is required", 400),
       []) := by
  have hno : hasNoTextPart [InPart.dataPart (some "es")] := by
    intro t hm
    simp [List.mem_singleton] at hm
  exact ⟨hno, rfl,
    (C5_missing_content_rejected_nothing_enqueued
      ⟨[InPart.dataPart (some "es")], some "m1"⟩ "f1"
      ⟨"c", "a", "x", "y", "ts"⟩ true ⟨none, some "el", none⟩ "f2" true
      hno rfl).1,
    (C5_missing_content_rejected_nothing_enqueued
      ⟨[InPart.dataPart (some "es")], some "m1"⟩ "f1"
      ⟨"c", "a", "x", "y", "ts"⟩ true ⟨none, some "el", none⟩ "f2" true
      hno rfl).2⟩

/-- C6: a status query for a task id with no stored Result Record is
not an error: tasks/get synthesizes a Task in state "working" and the
legacy endpoint answers HTTP 200 with status "pending". -/
theorem C6_absent_record_pending_view
    (id : String) (env : FreshEnv) :
    (tasks_get id none env).state = "working" ∧
    (tasks_get id none env).id = id ∧
    ((get_task_status_legacy id none).1).statusOf = "pending" ∧
    (get_task_status_legacy id none).2 = 200 := by
  exact ⟨rfl, rfl, rfl, rfl⟩

/-- C8: view projection is drift-free: for one stored Result Record the
A2A view computed by tasks_get has the same terminal fields (state,
artifact text, processed_at) under any two draws of fresh ids and
clock readings, those fields are exactly the fields of the record, and
the legacy view is a pure function of the record with the same terminal
fields. -/
theorem C8_view_projection_idempotent
    (id : String) (r : ResultRecord) (env1 env2 : FreshEnv) :
    a2aTerminalFields (tasks_get id (some (StoredBlob.legacy r)) env1) =
      a2aTerminalFields (tasks_get id (some (StoredBlob.legacy r)) env2) ∧
    a2aTerminalFields (tasks_get id (some (StoredBlob.legacy r)) env1) =
      ("completed", [r.artifact_content], [some r.processed_at]) ∧
    legacyTerminalFields ((get_task_status_legacy id (some r)).1) =
      ("completed", some r.artifact_content, some r.processed_at) := by
  exact ⟨rfl, rfl, rfl⟩

/-- C9: message_send rejects a message whose last text part carries the
empty string (or no "text" value, or which has no text part at all)
with exactly the same outcome — the validation error and nothing
enqueued; and when several text parts are present, the text of the last
one is what is validated and, when nonempty, enqueued as the document
content. -/
theorem C9_empty_text_rejected_last_text_wins
    (message : InMessage) (freshTaskId : String) (env : FreshEnv)
    (enqueueOk : Bool) :
    ((lastTextField message.parts = some (some "") ∨
        lastTextField message.parts = some none ∨
        lastTextField message.parts = none) →
      message_send message freshTaskId env enqueueOk =
        (Except.error NO_TEXT_ERROR, [])) ∧
    (∀ t, t ≠ "" → lastTextField message.parts = some (some t) →
      ∃ task, message_send message freshTaskId env true =
        (Except.ok task,
         [{ task_id := freshTaskId, document_content := t,
            target_language := (extractContent message).2,
            message_id := message.messageId }])) := by
  have hfst : (extractContent message).1 =
      (lastTextField message.parts).getD none := by
    rw [extractContent, extractLoop_fst]
  constructor
  · intro h
    have hfalsy : pyFalsy (extractContent message).1 = true := by
      rcases h with h | h | h <;> rw [hfst, h] <;> rfl
    simp [message_send, hfalsy]
  · intro t ht hlast
    have h1 : (extractContent message).1 = some t := by rw [hfst, hlast]; rfl
    obtain ⟨task, htask, _, _⟩ :=
      C3_message_send_working_task message freshTaskId env t h1 ht
    exact ⟨task, htask⟩

/-- C9 witness: the message whose parts are a nonempty text "hi"
followed by an empty text part is rejected exactly like one with no
text part, and in a message holding text "first" then text "last" the
enqueued content is "last". -/
theorem C9_empty_text_rejected_last_text_wins_witness :
    lastTextField [InPart.textPart (some "hi"),
        InPart.textPart (some "")] = some (some "") ∧
    message_send ⟨[InPart.textPart (some "hi"),
        InPart.textPart (some "")], none⟩ "f1"
        ⟨"c", "a", "x", "y", "ts"⟩ true =
      (Except.error NO_TEXT_ERROR, []) ∧
    "last" ≠ "" ∧
    lastTextField [InPart.textPart (some "first"),
        InPart.textPart (some "last")] = some (some "last") ∧
    (∃ task, message_send ⟨[InPart.textPart (some "first"),
          InPart.textPart (some "last")], none⟩ "f1"
          ⟨"c", "a", "x", "y", "ts"⟩ true =
        (Except.ok task,
         [{ task_id := "f1", document_content := "last",
            target_language := (extractContent
              ⟨[InPart.textPart (some "first"),
                InPart.textPart (some "last")], none⟩).2,
            message_id := none }])) :=
  ⟨by decide,
   (C9_empty_text_rejected_last_text_wins
      ⟨[InPart.textPart (some "hi"), InPart.textPart (some "")], none⟩
      "f1" ⟨"c", "a", "x", "y", "ts"⟩ true).1 (Or.inl (by decide)),
   by decide, by decide,
   (C9_empty_text_rejected_last_text_wins
      ⟨[InPart.textPart (some "first"), InPart.textPart (some "last")],
       none⟩ "f1" ⟨"c", "a", "x", "y", "ts"⟩ true).2 "last" (by decide)
     (by decide)⟩

end A2ATranslation
